import Mathlib

/-!
Verification of the AXPBY dispatch/specialization core of
`src/impl/Kokkos_Blas1_MV_impl_axpby.hpp` and of the `rot` unification layer
(`KokkosBlas1_rot_spec.hpp`), as a shallow embedding in Lean 4.

Element values are modelled by `FVal`: exact rationals extended with a single
non-finite absorbing element `nan`.  Arithmetic on finite values is exact
(the element type's "exact/representable precision"); `nan` propagates through
`+`, `-`, unary `-` and `*` exactly as an IEEE NaN does — in particular
`0 * nan = nan`, which is what distinguishes "the term is absent" from
"the term is multiplied by zero".  The C++ `operator==` used by coefficient
classification is modelled by `FVal.feq`, which (like IEEE comparison)
returns `false` whenever either side is `nan`.

Rank-2 views are total functions `ℕ → ℕ → FVal` together with explicit
dimensions `numRows`/`numCols`; rank-1 views are `ℕ → FVal` with a length.
`size_type` is modelled as a 64-bit unsigned integer: products are taken
modulo `2 ^ 64`.
-/

namespace KokkosBlas

/-- Element values: exact rationals plus an IEEE-style NaN. -/
inductive FVal where
  | nan : FVal
  | fin : ℚ → FVal
deriving DecidableEq, Repr

namespace FVal

/-- Addition; `nan` absorbs, finite values add exactly. -/
def add : FVal → FVal → FVal
  | fin a, fin b => fin (a + b)
  | _, _ => nan

/-- Subtraction; `nan` absorbs. -/
def sub : FVal → FVal → FVal
  | fin a, fin b => fin (a - b)
  | _, _ => nan

/-- Multiplication; `nan` absorbs (in particular `0 * nan = nan`). -/
def mul : FVal → FVal → FVal
  | fin a, fin b => fin (a * b)
  | _, _ => nan

/-- Negation; the negation of a NaN is a NaN. -/
def neg : FVal → FVal
  | fin a => fin (-a)
  | nan => nan

instance : Add FVal := ⟨add⟩

instance : Sub FVal := ⟨sub⟩

instance : Mul FVal := ⟨mul⟩

instance : Neg FVal := ⟨neg⟩

/-- `ArithTraits::zero ()`: the additive identity of the element type. -/
def zero : FVal := fin 0

/-- `ArithTraits::one ()`: the multiplicative identity of the element type. -/
def one : FVal := fin 1

/-- The C++ `operator==` on element values: IEEE-style, `false` whenever
either operand is NaN, exact comparison of finite values, no tolerance. -/
def feq : FVal → FVal → Bool
  | fin a, fin b => a == b
  | _, _ => false

end FVal

open FVal

/-- A rank-2 view's entries (dimensions are carried separately). -/
def Grid : Type := ℕ → ℕ → FVal

/-- A rank-1 view's entries (the length is carried separately). -/
def Vec : Type := ℕ → FVal

/-! ### Coefficient classification at the public entry points

From `Axpby<RMV,AV,XMV,BV,YMV,2>::axpby` (scalar-coefficient partial
specialization, lines 1800–1826) and `Axpby<RV,AV,XV,BV,YV,1>::axpby`
(lines 1879–1899) of `Kokkos_Blas1_MV_impl_axpby.hpp`. -/

/-- Rank-2 scalar-coefficient classification (`if`/`else if` chain):
`alpha == zero → 0`, `alpha == -one → -1`, `alpha == one → 1`, else `2`. -/
def classifyScalar2 (v : FVal) : Int :=
  if feq v FVal.zero then 0
  else if feq v (-FVal.one) then -1
  else if feq v FVal.one then 1
  else 2

/-- Rank-1 scalar-coefficient classification: initialized to `2`, then the
same `if`/`else if` chain as the rank-2 entry point. -/
def classifyScalar1 (v : FVal) : Int :=
  if feq v FVal.zero then 0
  else if feq v (-FVal.one) then -1
  else if feq v FVal.one then 1
  else 2

/-- Rank-2 vector-coefficient classification (lines 1742–1748): the tag is
initialized to `2` and set to `0` exactly when `av.dimension_0 () == 0`.
The contents of the coefficient view are never consulted. -/
def classifyVecCoeff (len : ℕ) (_contents : Vec) : Int :=
  if len = 0 then 0 else 2

/-! ### The elementwise functors

Each C++ functor body is a sequence of sixteen `if (scalar_x == sx &&
scalar_y == sy)` blocks, each assigning the output entry; the conditions are
mutually exclusive, so the sequence is modelled by an `if`/`else if` chain in
the same order, returning `none` when no branch fires (i.e. when the
compile-time tags lie outside `{0,-1,1,2}`, in which case the C++ body writes
nothing). -/

/-- Value written by `MV_Axpby_Functor` (general version: `a`, `b` are 1-D
views, lines 122–304) to `R(i,k)`, given `x = X(i,k)`, `y = Y(i,k)`. -/
def MV_Axpby_Functor_val (sx sy : Int) (av bv : Vec) (k : ℕ)
    (x y : FVal) : Option FVal :=
  if sx = 0 ∧ sy = 0 then some FVal.zero
  else if sx = 0 ∧ sy = -1 then some (-y)
  else if sx = 0 ∧ sy = 1 then some y
  else if sx = 0 ∧ sy = 2 then some (bv k * y)
  else if sx = -1 ∧ sy = 0 then some (-x)
  else if sx = -1 ∧ sy = -1 then some (-x - y)
  else if sx = -1 ∧ sy = 1 then some (-x + y)
  else if sx = -1 ∧ sy = 2 then some (-x + bv k * y)
  else if sx = 1 ∧ sy = 0 then some x
  else if sx = 1 ∧ sy = -1 then some (x - y)
  else if sx = 1 ∧ sy = 1 then some (x + y)
  else if sx = 1 ∧ sy = 2 then some (x + bv k * y)
  else if sx = 2 ∧ sy = 0 then some (av k * x)
  else if sx = 2 ∧ sy = -1 then some (av k * x - y)
  else if sx = 2 ∧ sy = 1 then some (av k * x + y)
  else if sx = 2 ∧ sy = 2 then some (av k * x + bv k * y)
  else none

/-- Value written by the scalar-coefficient partial specialization of
`MV_Axpby_Functor` (lines 370–553) to `R(i,k)`. -/
def MV_Axpby_Functor_scalar_val (sx sy : Int) (a b : FVal)
    (x y : FVal) : Option FVal :=
  if sx = 0 ∧ sy = 0 then some FVal.zero
  else if sx = 0 ∧ sy = -1 then some (-y)
  else if sx = 0 ∧ sy = 1 then some y
  else if sx = 0 ∧ sy = 2 then some (b * y)
  else if sx = -1 ∧ sy = 0 then some (-x)
  else if sx = -1 ∧ sy = -1 then some (-x - y)
  else if sx = -1 ∧ sy = 1 then some (-x + y)
  else if sx = -1 ∧ sy = 2 then some (-x + b * y)
  else if sx = 1 ∧ sy = 0 then some x
  else if sx = 1 ∧ sy = -1 then some (x - y)
  else if sx = 1 ∧ sy = 1 then some (x + y)
  else if sx = 1 ∧ sy = 2 then some (x + b * y)
  else if sx = 2 ∧ sy = 0 then some (a * x)
  else if sx = 2 ∧ sy = -1 then some (a * x - y)
  else if sx = 2 ∧ sy = 1 then some (a * x + y)
  else if sx = 2 ∧ sy = 2 then some (a * x + b * y)
  else none

/-- Value written by `MV_Axpby_Unroll_Functor` (general version, lines
607–742) to `R(i,k)`; the arithmetic is identical to `MV_Axpby_Functor`,
only the loop bound (`UNROLL`) differs, which lives in the kernel below. -/
def MV_Axpby_Unroll_Functor_val (sx sy : Int) (av bv : Vec) (k : ℕ)
    (x y : FVal) : Option FVal :=
  if sx = 0 ∧ sy = 0 then some FVal.zero
  else if sx = 0 ∧ sy = -1 then some (-y)
  else if sx = 0 ∧ sy = 1 then some y
  else if sx = 0 ∧ sy = 2 then some (bv k * y)
  else if sx = -1 ∧ sy = 0 then some (-x)
  else if sx = -1 ∧ sy = -1 then some (-x - y)
  else if sx = -1 ∧ sy = 1 then some (-x + y)
  else if sx = -1 ∧ sy = 2 then some (-x + bv k * y)
  else if sx = 1 ∧ sy = 0 then some x
  else if sx = 1 ∧ sy = -1 then some (x - y)
  else if sx = 1 ∧ sy = 1 then some (x + y)
  else if sx = 1 ∧ sy = 2 then some (x + bv k * y)
  else if sx = 2 ∧ sy = 0 then some (av k * x)
  else if sx = 2 ∧ sy = -1 then some (av k * x - y)
  else if sx = 2 ∧ sy = 1 then some (av k * x + y)
  else if sx = 2 ∧ sy = 2 then some (av k * x + bv k * y)
  else none

/-- Value written by the scalar-coefficient partial specialization of
`MV_Axpby_Unroll_Functor` (lines 792 ff.) to `R(i,k)`. -/
def MV_Axpby_Unroll_Functor_scalar_val (sx sy : Int) (a b : FVal)
    (x y : FVal) : Option FVal :=
  if sx = 0 ∧ sy = 0 then some FVal.zero
  else if sx = 0 ∧ sy = -1 then some (-y)
  else if sx = 0 ∧ sy = 1 then some y
  else if sx = 0 ∧ sy = 2 then some (b * y)
  else if sx = -1 ∧ sy = 0 then some (-x)
  else if sx = -1 ∧ sy = -1 then some (-x - y)
  else if sx = -1 ∧ sy = 1 then some (-x + y)
  else if sx = -1 ∧ sy = 2 then some (-x + b * y)
  else if sx = 1 ∧ sy = 0 then some x
  else if sx = 1 ∧ sy = -1 then some (x - y)
  else if sx = 1 ∧ sy = 1 then some (x + y)
  else if sx = 1 ∧ sy = 2 then some (x + b * y)
  else if sx = 2 ∧ sy = 0 then some (a * x)
  else if sx = 2 ∧ sy = -1 then some (a * x - y)
  else if sx = 2 ∧ sy = 1 then some (a * x + y)
  else if sx = 2 ∧ sy = 2 then some (a * x + b * y)
  else none

/-- Value written by `V_Axpby_Functor` (general version: `a`, `b` are 1-D
views, of which only entry 0 is read; lines 985–1040) to `R(i)`. -/
def V_Axpby_Functor_val (sx sy : Int) (av bv : Vec)
    (x y : FVal) : Option FVal :=
  if sx = 0 ∧ sy = 0 then some FVal.zero
  else if sx = 0 ∧ sy = -1 then some (-y)
  else if sx = 0 ∧ sy = 1 then some y
  else if sx = 0 ∧ sy = 2 then some (bv 0 * y)
  else if sx = -1 ∧ sy = 0 then some (-x)
  else if sx = -1 ∧ sy = -1 then some (-x - y)
  else if sx = -1 ∧ sy = 1 then some (-x + y)
  else if sx = -1 ∧ sy = 2 then some (-x + bv 0 * y)
  else if sx = 1 ∧ sy = 0 then some x
  else if sx = 1 ∧ sy = -1 then some (x - y)
  else if sx = 1 ∧ sy = 1 then some (x + y)
  else if sx = 1 ∧ sy = 2 then some (x + bv 0 * y)
  else if sx = 2 ∧ sy = 0 then some (av 0 * x)
  else if sx = 2 ∧ sy = -1 then some (av 0 * x - y)
  else if sx = 2 ∧ sy = 1 then some (av 0 * x + y)
  else if sx = 2 ∧ sy = 2 then some (av 0 * x + bv 0 * y)
  else none

/-- Value written by the scalar-coefficient partial specialization of
`V_Axpby_Functor` (lines 1102–1157) to `R(i)`. -/
def V_Axpby_Functor_scalar_val (sx sy : Int) (a b : FVal)
    (x y : FVal) : Option FVal :=
  if sx = 0 ∧ sy = 0 then some FVal.zero
  else if sx = 0 ∧ sy = -1 then some (-y)
  else if sx = 0 ∧ sy = 1 then some y
  else if sx = 0 ∧ sy = 2 then some (b * y)
  else if sx = -1 ∧ sy = 0 then some (-x)
  else if sx = -1 ∧ sy = -1 then some (-x - y)
  else if sx = -1 ∧ sy = 1 then some (-x + y)
  else if sx = -1 ∧ sy = 2 then some (-x + b * y)
  else if sx = 1 ∧ sy = 0 then some x
  else if sx = 1 ∧ sy = -1 then some (x - y)
  else if sx = 1 ∧ sy = 1 then some (x + y)
  else if sx = 1 ∧ sy = 2 then some (x + b * y)
  else if sx = 2 ∧ sy = 0 then some (a * x)
  else if sx = 2 ∧ sy = -1 then some (a * x - y)
  else if sx = 2 ∧ sy = 1 then some (a * x + y)
  else if sx = 2 ∧ sy = 2 then some (a * x + b * y)
  else none

/-! ### Dispatch: runtime tag pair → instantiated compile-time tag pair

Each dispatch function is a chain of twelve `if (a == _ && b == _)` blocks
(first coefficient groups `0`, `-1`, `1`, each crossed with `0,-1,1,2`), each
launching one functor instantiation and returning, followed by an
unconditional launch of the `(2,2)` instantiation; so any pair with `a == 2`
(or any out-of-range pair) reaches the `(2,2)` fallback. -/

/-- Compile-time tag pair instantiated by `MV_Axpby_Generic`
(lines 1330–1396) for the runtime pair `(a, b)`. -/
def MV_Axpby_Generic_tags (a b : Int) : Int × Int :=
  if a = 0 ∧ b = 0 then (0, 0)
  else if a = 0 ∧ b = -1 then (0, -1)
  else if a = 0 ∧ b = 1 then (0, 1)
  else if a = 0 ∧ b = 2 then (0, 2)
  else if a = -1 ∧ b = 0 then (-1, 0)
  else if a = -1 ∧ b = -1 then (-1, -1)
  else if a = -1 ∧ b = 1 then (-1, 1)
  else if a = -1 ∧ b = 2 then (-1, 2)
  else if a = 1 ∧ b = 0 then (1, 0)
  else if a = 1 ∧ b = -1 then (1, -1)
  else if a = 1 ∧ b = 1 then (1, 1)
  else if a = 1 ∧ b = 2 then (1, 2)
  else (2, 2)

/-- Compile-time tag pair instantiated by `V_Axpby_Generic`
(lines 1434–1500) for the runtime pair `(a, b)`. -/
def V_Axpby_Generic_tags (a b : Int) : Int × Int :=
  if a = 0 ∧ b = 0 then (0, 0)
  else if a = 0 ∧ b = -1 then (0, -1)
  else if a = 0 ∧ b = 1 then (0, 1)
  else if a = 0 ∧ b = 2 then (0, 2)
  else if a = -1 ∧ b = 0 then (-1, 0)
  else if a = -1 ∧ b = -1 then (-1, -1)
  else if a = -1 ∧ b = 1 then (-1, 1)
  else if a = -1 ∧ b = 2 then (-1, 2)
  else if a = 1 ∧ b = 0 then (1, 0)
  else if a = 1 ∧ b = -1 then (1, -1)
  else if a = 1 ∧ b = 1 then (1, 1)
  else if a = 1 ∧ b = 2 then (1, 2)
  else (2, 2)

/-- Compile-time tag pair instantiated by `MV_Axpby_Unrolled`
(lines 1210–1276) for the runtime pair `(a, b)`. -/
def MV_Axpby_Unrolled_tags (a b : Int) : Int × Int :=
  if a = 0 ∧ b = 0 then (0, 0)
  else if a = 0 ∧ b = -1 then (0, -1)
  else if a = 0 ∧ b = 1 then (0, 1)
  else if a = 0 ∧ b = 2 then (0, 2)
  else if a = -1 ∧ b = 0 then (-1, 0)
  else if a = -1 ∧ b = -1 then (-1, -1)
  else if a = -1 ∧ b = 1 then (-1, 1)
  else if a = -1 ∧ b = 2 then (-1, 2)
  else if a = 1 ∧ b = 0 then (1, 0)
  else if a = 1 ∧ b = -1 then (1, -1)
  else if a = 1 ∧ b = 1 then (1, 1)
  else if a = 1 ∧ b = 2 then (1, 2)
  else (2, 2)

/-! ### Kernel launches

`Kokkos::parallel_for (policy, op)` over `RangePolicy (0, numRows)` runs the
functor body once per row index `i ∈ [0, numRows)`; the body loops over the
columns `k ∈ [0, numCols)` (or `[0, UNROLL)` for the unrolled functor).  An
entry of `R` outside the iteration space keeps its prior value, as does every
entry when no branch of the functor body fires. -/

/-- Full-grid effect of launching `MV_Axpby_Functor` (vector coefficients)
with compile-time tags `(sx, sy)` over `numRows` rows. -/
def MV_kernel (sx sy : Int) (numRows numCols : ℕ) (av bv : Vec)
    (x y r0 : Grid) : Grid :=
  fun i k =>
    if i < numRows ∧ k < numCols then
      (MV_Axpby_Functor_val sx sy av bv k (x i k) (y i k)).getD (r0 i k)
    else r0 i k

/-- Full-grid effect of launching the scalar-coefficient
`MV_Axpby_Functor`. -/
def MV_kernel_scalar (sx sy : Int) (numRows numCols : ℕ) (a b : FVal)
    (x y r0 : Grid) : Grid :=
  fun i k =>
    if i < numRows ∧ k < numCols then
      (MV_Axpby_Functor_scalar_val sx sy a b (x i k) (y i k)).getD (r0 i k)
    else r0 i k

/-- Full-grid effect of launching `MV_Axpby_Unroll_Functor` (vector
coefficients) with compile-time column count `UNROLL`. -/
def MV_Unroll_kernel (sx sy : Int) (numRows UNROLL : ℕ) (av bv : Vec)
    (x y r0 : Grid) : Grid :=
  fun i k =>
    if i < numRows ∧ k < UNROLL then
      (MV_Axpby_Unroll_Functor_val sx sy av bv k (x i k) (y i k)).getD (r0 i k)
    else r0 i k

/-- Full-grid effect of launching the scalar-coefficient
`MV_Axpby_Unroll_Functor`. -/
def MV_Unroll_kernel_scalar (sx sy : Int) (numRows UNROLL : ℕ) (a b : FVal)
    (x y r0 : Grid) : Grid :=
  fun i k =>
    if i < numRows ∧ k < UNROLL then
      (MV_Axpby_Unroll_Functor_scalar_val sx sy a b (x i k) (y i k)).getD (r0 i k)
    else r0 i k

/-- Full-vector effect of launching `V_Axpby_Functor` (vector
coefficients). -/
def V_kernel (sx sy : Int) (numRows : ℕ) (av bv : Vec)
    (x y r0 : Vec) : Vec :=
  fun i =>
    if i < numRows then
      (V_Axpby_Functor_val sx sy av bv (x i) (y i)).getD (r0 i)
    else r0 i

/-- Full-vector effect of launching the scalar-coefficient
`V_Axpby_Functor`. -/
def V_kernel_scalar (sx sy : Int) (numRows : ℕ) (a b : FVal)
    (x y r0 : Vec) : Vec :=
  fun i =>
    if i < numRows then
      (V_Axpby_Functor_scalar_val sx sy a b (x i) (y i)).getD (r0 i)
    else r0 i

/-- `MV_Axpby_Generic` (vector coefficients): dispatch on `(a, b)`, then
launch the selected `MV_Axpby_Functor` instantiation. -/
def MV_Axpby_Generic_run (numRows numCols : ℕ) (av bv : Vec)
    (x y r0 : Grid) (a b : Int) : Grid :=
  MV_kernel (MV_Axpby_Generic_tags a b).1 (MV_Axpby_Generic_tags a b).2
    numRows numCols av bv x y r0

/-- `MV_Axpby_Generic` (scalar coefficients): same dispatch, scalar
functor. -/
def MV_Axpby_Generic_scalar_run (numRows numCols : ℕ) (alpha beta : FVal)
    (x y r0 : Grid) (a b : Int) : Grid :=
  MV_kernel_scalar (MV_Axpby_Generic_tags a b).1 (MV_Axpby_Generic_tags a b).2
    numRows numCols alpha beta x y r0

/-- `MV_Axpby_Unrolled` (vector coefficients) at compile-time width
`UNROLL`. -/
def MV_Axpby_Unrolled_run (UNROLL numRows : ℕ) (av bv : Vec)
    (x y r0 : Grid) (a b : Int) : Grid :=
  MV_Unroll_kernel (MV_Axpby_Unrolled_tags a b).1 (MV_Axpby_Unrolled_tags a b).2
    numRows UNROLL av bv x y r0

/-- `MV_Axpby_Unrolled` (scalar coefficients) at compile-time width
`UNROLL`. -/
def MV_Axpby_Unrolled_scalar_run (UNROLL numRows : ℕ) (alpha beta : FVal)
    (x y r0 : Grid) (a b : Int) : Grid :=
  MV_Unroll_kernel_scalar (MV_Axpby_Unrolled_tags a b).1
    (MV_Axpby_Unrolled_tags a b).2 numRows UNROLL alpha beta x y r0

/-- `V_Axpby_Generic` (vector coefficients). -/
def V_Axpby_Generic_run (numRows : ℕ) (av bv : Vec)
    (x y r0 : Vec) (a b : Int) : Vec :=
  V_kernel (V_Axpby_Generic_tags a b).1 (V_Axpby_Generic_tags a b).2
    numRows av bv x y r0

/-- `V_Axpby_Generic` (scalar coefficients). -/
def V_Axpby_Generic_scalar_run (numRows : ℕ) (alpha beta : FVal)
    (x y r0 : Vec) (a b : Int) : Vec :=
  V_kernel_scalar (V_Axpby_Generic_tags a b).1 (V_Axpby_Generic_tags a b).2
    numRows alpha beta x y r0

/-! ### Layout-aware invoker and public entry points -/

/-- The three execution paths `MV_Axpby_Invoke_Left` can take. -/
inductive InvokePath where
  | rank1 : InvokePath
  | unrolled : ℕ → InvokePath
  | generic : InvokePath
deriving DecidableEq, Repr

/-- The path selected by the `switch (numCols)` of `MV_Axpby_Invoke_Left`
(lines 1549–1615): `case 1` degrades to the rank-1 generic path on column-0
subviews, `case 2 … case 16` go to `MV_Axpby_Unrolled` instantiated at that
literal width, and `default` goes to `MV_Axpby_Generic`. -/
def MV_Axpby_Invoke_Left_path (numCols : ℕ) : InvokePath :=
  if numCols = 1 then InvokePath.rank1
  else if numCols = 2 then InvokePath.unrolled 2
  else if numCols = 3 then InvokePath.unrolled 3
  else if numCols = 4 then InvokePath.unrolled 4
  else if numCols = 5 then InvokePath.unrolled 5
  else if numCols = 6 then InvokePath.unrolled 6
  else if numCols = 7 then InvokePath.unrolled 7
  else if numCols = 8 then InvokePath.unrolled 8
  else if numCols = 9 then InvokePath.unrolled 9
  else if numCols = 10 then InvokePath.unrolled 10
  else if numCols = 11 then InvokePath.unrolled 11
  else if numCols = 12 then InvokePath.unrolled 12
  else if numCols = 13 then InvokePath.unrolled 13
  else if numCols = 14 then InvokePath.unrolled 14
  else if numCols = 15 then InvokePath.unrolled 15
  else if numCols = 16 then InvokePath.unrolled 16
  else InvokePath.generic

/-- `MV_Axpby_Invoke_Left` for scalar coefficients: the `switch (numCols)`
realized on the model's state.  In `case 1` the rank-1 result on the column-0
subviews writes through to column 0 of `r`; all other entries keep their
prior values. -/
def MV_Axpby_Invoke_Left_scalar_run (numRows numCols : ℕ) (alpha beta : FVal)
    (x y r0 : Grid) (a b : Int) : Grid :=
  if numCols = 1 then
    fun i k =>
      if k = 0 then
        V_Axpby_Generic_scalar_run numRows alpha beta
          (fun j => x j 0) (fun j => y j 0) (fun j => r0 j 0) a b i
      else r0 i k
  else if numCols = 2 then MV_Axpby_Unrolled_scalar_run 2 numRows alpha beta x y r0 a b
  else if numCols = 3 then MV_Axpby_Unrolled_scalar_run 3 numRows alpha beta x y r0 a b
  else if numCols = 4 then MV_Axpby_Unrolled_scalar_run 4 numRows alpha beta x y r0 a b
  else if numCols = 5 then MV_Axpby_Unrolled_scalar_run 5 numRows alpha beta x y r0 a b
  else if numCols = 6 then MV_Axpby_Unrolled_scalar_run 6 numRows alpha beta x y r0 a b
  else if numCols = 7 then MV_Axpby_Unrolled_scalar_run 7 numRows alpha beta x y r0 a b
  else if numCols = 8 then MV_Axpby_Unrolled_scalar_run 8 numRows alpha beta x y r0 a b
  else if numCols = 9 then MV_Axpby_Unrolled_scalar_run 9 numRows alpha beta x y r0 a b
  else if numCols = 10 then MV_Axpby_Unrolled_scalar_run 10 numRows alpha beta x y r0 a b
  else if numCols = 11 then MV_Axpby_Unrolled_scalar_run 11 numRows alpha beta x y r0 a b
  else if numCols = 12 then MV_Axpby_Unrolled_scalar_run 12 numRows alpha beta x y r0 a b
  else if numCols = 13 then MV_Axpby_Unrolled_scalar_run 13 numRows alpha beta x y r0 a b
  else if numCols = 14 then MV_Axpby_Unrolled_scalar_run 14 numRows alpha beta x y r0 a b
  else if numCols = 15 then MV_Axpby_Unrolled_scalar_run 15 numRows alpha beta x y r0 a b
  else if numCols = 16 then MV_Axpby_Unrolled_scalar_run 16 numRows alpha beta x y r0 a b
  else MV_Axpby_Generic_scalar_run numRows numCols alpha beta x y r0 a b

/-- `MV_Axpby_Invoke_Left` for vector (per-column view) coefficients: the
same `switch (numCols)`; in `case 1` the coefficient views `av`, `bv` are
passed unchanged to `V_Axpby_Generic` (whose functor reads `av(0)`,
`bv(0)`), and the rank-1 result on the column-0 subviews writes through to
column 0 of `r`. -/
def MV_Axpby_Invoke_Left_run (numRows numCols : ℕ) (av bv : Vec)
    (x y r0 : Grid) (a b : Int) : Grid :=
  if numCols = 1 then
    fun i k =>
      if k = 0 then
        V_Axpby_Generic_run numRows av bv
          (fun j => x j 0) (fun j => y j 0) (fun j => r0 j 0) a b i
      else r0 i k
  else if numCols = 2 then MV_Axpby_Unrolled_run 2 numRows av bv x y r0 a b
  else if numCols = 3 then MV_Axpby_Unrolled_run 3 numRows av bv x y r0 a b
  else if numCols = 4 then MV_Axpby_Unrolled_run 4 numRows av bv x y r0 a b
  else if numCols = 5 then MV_Axpby_Unrolled_run 5 numRows av bv x y r0 a b
  else if numCols = 6 then MV_Axpby_Unrolled_run 6 numRows av bv x y r0 a b
  else if numCols = 7 then MV_Axpby_Unrolled_run 7 numRows av bv x y r0 a b
  else if numCols = 8 then MV_Axpby_Unrolled_run 8 numRows av bv x y r0 a b
  else if numCols = 9 then MV_Axpby_Unrolled_run 9 numRows av bv x y r0 a b
  else if numCols = 10 then MV_Axpby_Unrolled_run 10 numRows av bv x y r0 a b
  else if numCols = 11 then MV_Axpby_Unrolled_run 11 numRows av bv x y r0 a b
  else if numCols = 12 then MV_Axpby_Unrolled_run 12 numRows av bv x y r0 a b
  else if numCols = 13 then MV_Axpby_Unrolled_run 13 numRows av bv x y r0 a b
  else if numCols = 14 then MV_Axpby_Unrolled_run 14 numRows av bv x y r0 a b
  else if numCols = 15 then MV_Axpby_Unrolled_run 15 numRows av bv x y r0 a b
  else if numCols = 16 then MV_Axpby_Unrolled_run 16 numRows av bv x y r0 a b
  else MV_Axpby_Generic_run numRows numCols av bv x y r0 a b

/-- The storage layout of the operand views (a compile-time type parameter
of the C++ templates). -/
inductive Layout where
  | left : Layout
  | right : Layout
deriving DecidableEq, Repr

/-- `INT_MAX`, cast to the unsigned `size_type`. -/
def INT_MAX : ℕ := 2147483647

/-- The rank-2 index-width test (lines 1828–1829): `numRows <
(size_type) INT_MAX && numRows * numCols < (size_type) INT_MAX`, with the
product computed in the 64-bit unsigned `size_type`.  `true` selects the
32-bit `int` index type, `false` the native `size_type`. -/
def chooseIndexWidth2 (numRows numCols : ℕ) : Bool :=
  decide (numRows < INT_MAX) && decide (numRows * numCols % 2 ^ 64 < INT_MAX)

/-- The rank-1 index-width test (line 1901): `numRows <
(size_type) INT_MAX`. -/
def chooseIndexWidth1 (numRows : ℕ) : Bool :=
  decide (numRows < INT_MAX)

/-- The rank-2 scalar-coefficient entry point
`Axpby<RMV,AV,XMV,BV,YMV,2>::axpby` (lines 1775–1839): classify both
coefficients, choose the index width, and call `MV_Axpby_Invoke_Left` —
unconditionally, whatever the layout type parameter of the views is
(`MV_Axpby_Invoke_Right` is never called by any entry point in the file).
Both index-width branches perform the same call; they differ only in the
`index_type` typedef. -/
def Axpby2_scalar_axpby (_lay : Layout) (numRows numCols : ℕ)
    (alpha beta : FVal) (x y r0 : Grid) : Grid :=
  let a := classifyScalar2 alpha
  let b := classifyScalar2 beta
  if chooseIndexWidth2 numRows numCols then
    MV_Axpby_Invoke_Left_scalar_run numRows numCols alpha beta x y r0 a b
  else
    MV_Axpby_Invoke_Left_scalar_run numRows numCols alpha beta x y r0 a b

/-- The rank-2 vector-coefficient entry point
`Axpby<RMV,AV,XMV,BV,YMV,2>::axpby` (lines 1715–1760): the tags are `2`
unless the corresponding coefficient view has zero length (the test of
lines 1742–1748, embodied in `classifyVecCoeff`), then the index width is
chosen and `MV_Axpby_Invoke_Left` is called unconditionally; both
index-width branches are the same call. -/
def Axpby2_vector_axpby (_lay : Layout) (numRows numCols aLen bLen : ℕ)
    (av bv : Vec) (x y r0 : Grid) : Grid :=
  let a := classifyVecCoeff aLen av
  let b := classifyVecCoeff bLen bv
  if chooseIndexWidth2 numRows numCols then
    MV_Axpby_Invoke_Left_run numRows numCols av bv x y r0 a b
  else
    MV_Axpby_Invoke_Left_run numRows numCols av bv x y r0 a b

/-- The execution path the rank-2 entry point takes for given layout and
column count: it always delegates to `MV_Axpby_Invoke_Left`, so the path is
determined by `numCols` alone. -/
def Axpby2_path (_lay : Layout) (numCols : ℕ) : InvokePath :=
  MV_Axpby_Invoke_Left_path numCols

/-- The rank-1 scalar-coefficient entry point
`Axpby<RV,AV,XV,BV,YV,1>::axpby` (lines 1854–1913): classify both
coefficients, choose the index width, call `V_Axpby_Generic`. -/
def Axpby1_scalar_axpby (numRows : ℕ) (alpha beta : FVal)
    (x y r0 : Vec) : Vec :=
  let a := classifyScalar1 alpha
  let b := classifyScalar1 beta
  if chooseIndexWidth1 numRows then
    V_Axpby_Generic_scalar_run numRows alpha beta x y r0 a b
  else
    V_Axpby_Generic_scalar_run numRows alpha beta x y r0 a b

/-- The rank-2 entry point with the index-width choice forced to `use32`
(the two C++ branches are the same call with different `index_type`
typedefs; this lets the width be varied independently of the problem
size). -/
def Axpby2_scalar_axpbyWith (use32 : Bool) (numRows numCols : ℕ)
    (alpha beta : FVal) (x y r0 : Grid) : Grid :=
  let a := classifyScalar2 alpha
  let b := classifyScalar2 beta
  if use32 then
    MV_Axpby_Invoke_Left_scalar_run numRows numCols alpha beta x y r0 a b
  else
    MV_Axpby_Invoke_Left_scalar_run numRows numCols alpha beta x y r0 a b

/-! ### Spec-side formula for the elementwise update

The spec's formula `R(i,[k]) = f_x(tag_x, coeff_x) * X(i,[k]) +
f_y(tag_y, coeff_y) * Y(i,[k])`, with a ZERO-tagged term *absent* rather
than multiplied out. -/

/-- The spec's contribution of one operand: absent for tag `0`, negated
operand for `-1`, the operand for `1`, coefficient times operand for `2`
(the coefficient being the stored scalar, the per-column `a(k)`, or `a(0)`
in the rank-1 case); no other tag occurs. -/
def specContrib (tag : Int) (coeff : FVal) (v : FVal) : Option FVal :=
  if tag = 0 then none
  else if tag = -1 then some (-v)
  else if tag = 1 then some v
  else if tag = 2 then some (coeff * v)
  else none

/-- Sum of the two contributions; with both absent the result is the
additive identity, an absent term contributes nothing (it is not added as a
literal zero). -/
def specSum : Option FVal → Option FVal → FVal
  | none, none => FVal.zero
  | some u, none => u
  | none, some w => w
  | some u, some w => u + w

/-! ### The `rot` unification layer (C9)

Modelled from the spec: the third-party (TPL) override specialization and
the `Rot_Invoke` generic functor body live in headers that are not under
`src/` (`KokkosBlas1_rot_tpl_spec_decl.hpp`, `KokkosBlas1_rot_impl.hpp`),
so implementations are abstract labels here.  The selection structure — the
two boolean template parameters defaulted from `rot_tpl_spec_avail` /
`rot_eti_spec_avail`, the full specialization
`Rot<ExecutionSpace, VectorView, ScalarView, false,
KOKKOSKERNELS_IMPL_COMPILE_LIBRARY>` whose body calls `Rot_Invoke`, and the
`extern template` ETI declarations that shift that same body's compilation
into the library — is from `KokkosBlas1_rot_spec.hpp` (lines 59–131 and the
`_DECL`/`_INST` macros). -/

/-- The implementation a concrete `Rot` instantiation resolves to. -/
inductive RotImpl where
  | tplOverride : RotImpl
  | genericBody : Bool → RotImpl
deriving DecidableEq, Repr

/-- The distinct bodies: the hand-written TPL override, or the header-only
generic body (which calls `Rot_Invoke`). -/
inductive RotBody where
  | tpl : RotBody
  | rotInvoke : RotBody
deriving DecidableEq, Repr

/-- Compile-time selection for a type tuple with availability flags
`(tplAvail, etiAvail)`: a TPL override specialization matches first when
available; otherwise the `Rot<…, false, _>` specialization applies, whose
body is the generic `Rot_Invoke` call, compiled into the library exactly
when the ETI flag is set (via the `extern template` declaration and the
`_INST` definition in a library translation unit). -/
def rotSelect (tplAvail etiAvail : Bool) : RotImpl :=
  if tplAvail then RotImpl.tplOverride else RotImpl.genericBody etiAvail

/-- The body executed by each resolved implementation; the ETI flag changes
only where the generic body is compiled, not which body runs. -/
def rotBodyOf : RotImpl → RotBody
  | RotImpl.tplOverride => RotBody.tpl
  | RotImpl.genericBody _ => RotBody.rotInvoke

/-- Whether the resolved implementation's generic body is compiled into the
library (`true`) or into the caller's translation unit (`false`); vacuously
`false` for the TPL override. -/
def rotCompiledInLibrary : RotImpl → Bool
  | RotImpl.tplOverride => false
  | RotImpl.genericBody e => e

/-! ### Helper lemmas -/

/-- The compile-time tags that actually occur: the dispatch layer only ever
instantiates functors with tags in `{0, -1, 1, 2}`. -/
def ValidTag (s : Int) : Prop := s = 0 ∨ s = -1 ∨ s = 1 ∨ s = 2

theorem FVal.sub_eq : ∀ (u w : FVal), u - w = u + (-w)
  | nan, nan => rfl
  | nan, fin _ => rfl
  | fin _, nan => rfl
  | fin a, fin b => congrArg FVal.fin (sub_eq_add_neg a b)

theorem FVal.neg_fin (a : ℚ) : -fin a = fin (-a) := rfl

theorem MV_Axpby_Functor_scalar_val_spec (sx sy : Int)
    (hx : ValidTag sx) (hy : ValidTag sy) (a b x y : FVal) :
    MV_Axpby_Functor_scalar_val sx sy a b x y
      = some (specSum (specContrib sx a x) (specContrib sy b y)) := by
  rcases hx with h | h | h | h <;> rcases hy with h' | h' | h' | h' <;>
    subst h <;> subst h' <;>
    simp [MV_Axpby_Functor_scalar_val, specContrib, specSum, FVal.sub_eq]

theorem MV_Axpby_Functor_val_spec (sx sy : Int)
    (hx : ValidTag sx) (hy : ValidTag sy) (av bv : Vec) (k : ℕ) (x y : FVal) :
    MV_Axpby_Functor_val sx sy av bv k x y
      = some (specSum (specContrib sx (av k) x) (specContrib sy (bv k) y)) := by
  rcases hx with h | h | h | h <;> rcases hy with h' | h' | h' | h' <;>
    subst h <;> subst h' <;>
    simp [MV_Axpby_Functor_val, specContrib, specSum, FVal.sub_eq]

theorem V_Axpby_Functor_scalar_val_spec (sx sy : Int)
    (hx : ValidTag sx) (hy : ValidTag sy) (a b x y : FVal) :
    V_Axpby_Functor_scalar_val sx sy a b x y
      = some (specSum (specContrib sx a x) (specContrib sy b y)) := by
  rcases hx with h | h | h | h <;> rcases hy with h' | h' | h' | h' <;>
    subst h <;> subst h' <;>
    simp [V_Axpby_Functor_scalar_val, specContrib, specSum, FVal.sub_eq]

theorem V_Axpby_Functor_val_spec (sx sy : Int)
    (hx : ValidTag sx) (hy : ValidTag sy) (av bv : Vec) (x y : FVal) :
    V_Axpby_Functor_val sx sy av bv x y
      = some (specSum (specContrib sx (av 0) x) (specContrib sy (bv 0) y)) := by
  rcases hx with h | h | h | h <;> rcases hy with h' | h' | h' | h' <;>
    subst h <;> subst h' <;>
    simp [V_Axpby_Functor_val, specContrib, specSum, FVal.sub_eq]

/-- The unrolled functor's per-entry arithmetic coincides with the generic
functor's (the two C++ bodies are identical except for the loop bound). -/
theorem MV_Axpby_Unroll_Functor_val_eq :
    MV_Axpby_Unroll_Functor_val = MV_Axpby_Functor_val := rfl

theorem MV_Axpby_Unroll_Functor_scalar_val_eq :
    MV_Axpby_Unroll_Functor_scalar_val = MV_Axpby_Functor_scalar_val := rfl

/-! ### C1 -/

/-- C1: for every tag pair `(sx, sy)` with `sx, sy ∈ {0, -1, 1, 2}`, every
row `i` below the row count and every column `k` below the column count, the
Axpby functors (rank-2 and rank-1, vector-form or scalar coefficients) write
`R(i,k) = fx + fy` with `fx` absent for tag 0, `-X(i,k)` for tag `-1`,
`X(i,k)` for tag `1`, and `a·X(i,k)` for tag `2` (`a` the stored scalar, the
per-column entry `a(k)`, or `a(0)` in the rank-1 case), symmetrically for
`fy`; in particular for `(0,0)` every written entry is the additive
identity. -/
theorem C1_functor_formula (sx sy : Int) (hx : ValidTag sx) (hy : ValidTag sy) :
    (∀ (rows cols : ℕ) (a b : FVal) (x y r0 : Grid) (i k : ℕ),
      i < rows → k < cols →
      MV_kernel_scalar sx sy rows cols a b x y r0 i k
        = specSum (specContrib sx a (x i k)) (specContrib sy b (y i k)))
    ∧ (∀ (rows cols : ℕ) (av bv : Vec) (x y r0 : Grid) (i k : ℕ),
      i < rows → k < cols →
      MV_kernel sx sy rows cols av bv x y r0 i k
        = specSum (specContrib sx (av k) (x i k)) (specContrib sy (bv k) (y i k)))
    ∧ (∀ (rows : ℕ) (a b : FVal) (x y r0 : Vec) (i : ℕ),
      i < rows →
      V_kernel_scalar sx sy rows a b x y r0 i
        = specSum (specContrib sx a (x i)) (specContrib sy b (y i)))
    ∧ (∀ (rows : ℕ) (av bv : Vec) (x y r0 : Vec) (i : ℕ),
      i < rows →
      V_kernel sx sy rows av bv x y r0 i
        = specSum (specContrib sx (av 0) (x i)) (specContrib sy (bv 0) (y i))) := by
  refine ⟨?_, ?_, ?_, ?_⟩
  · intro rows cols a b x y r0 i k hi hk
    rw [MV_kernel_scalar, if_pos ⟨hi, hk⟩,
      MV_Axpby_Functor_scalar_val_spec sx sy hx hy, Option.getD_some]
  · intro rows cols av bv x y r0 i k hi hk
    rw [MV_kernel, if_pos ⟨hi, hk⟩,
      MV_Axpby_Functor_val_spec sx sy hx hy, Option.getD_some]
  · intro rows a b x y r0 i hi
    rw [V_kernel_scalar, if_pos hi,
      V_Axpby_Functor_scalar_val_spec sx sy hx hy, Option.getD_some]
  · intro rows av bv x y r0 i hi
    rw [V_kernel, if_pos hi,
      V_Axpby_Functor_val_spec sx sy hx hy, Option.getD_some]

/-- Witness for C1: tags `(2, -1)`, a 1×1 problem with `a = 3`, `X = 2`,
`b = 5`, `Y = 7`: the written entry is `3·2 - 7 = -1`. -/
theorem C1_functor_formula_witness :
    MV_kernel_scalar 2 (-1) 1 1 (fin 3) (fin 5)
        (fun _ _ => fin 2) (fun _ _ => fin 7) (fun _ _ => fin 0) 0 0
      = specSum (specContrib 2 (fin 3) (fin 2)) (specContrib (-1) (fin 5) (fin 7)) :=
  (C1_functor_formula 2 (-1) (Or.inr (Or.inr (Or.inr rfl)))
      (Or.inr (Or.inl rfl))).1 1 1 (fin 3) (fin 5)
    (fun _ _ => fin 2) (fun _ _ => fin 7) (fun _ _ => fin 0) 0 0
    (Nat.zero_lt_one) (Nat.zero_lt_one)

/-! ### C10 -/

/-- C10: for every valid tag pair, the final contents of `R` (on the written
iteration space, with `R` not aliasing `X` or `Y`) are independent of `R`'s
initial contents: every functor branch only assigns to `R` and never reads
it, so two launches differing only in the initial `R` write identical
values. -/
theorem C10_output_independent_of_initial_R (sx sy : Int)
    (hx : ValidTag sx) (hy : ValidTag sy) :
    (∀ (rows cols : ℕ) (av bv : Vec) (x y r0 r0' : Grid) (i k : ℕ),
      i < rows → k < cols →
      MV_kernel sx sy rows cols av bv x y r0 i k
        = MV_kernel sx sy rows cols av bv x y r0' i k)
    ∧ (∀ (rows cols : ℕ) (a b : FVal) (x y r0 r0' : Grid) (i k : ℕ),
      i < rows → k < cols →
      MV_kernel_scalar sx sy rows cols a b x y r0 i k
        = MV_kernel_scalar sx sy rows cols a b x y r0' i k)
    ∧ (∀ (rows UNROLL : ℕ) (av bv : Vec) (x y r0 r0' : Grid) (i k : ℕ),
      i < rows → k < UNROLL →
      MV_Unroll_kernel sx sy rows UNROLL av bv x y r0 i k
        = MV_Unroll_kernel sx sy rows UNROLL av bv x y r0' i k)
    ∧ (∀ (rows UNROLL : ℕ) (a b : FVal) (x y r0 r0' : Grid) (i k : ℕ),
      i < rows → k < UNROLL →
      MV_Unroll_kernel_scalar sx sy rows UNROLL a b x y r0 i k
        = MV_Unroll_kernel_scalar sx sy rows UNROLL a b x y r0' i k)
    ∧ (∀ (rows : ℕ) (av bv : Vec) (x y r0 r0' : Vec) (i : ℕ),
      i < rows →
      V_kernel sx sy rows av bv x y r0 i = V_kernel sx sy rows av bv x y r0' i)
    ∧ (∀ (rows : ℕ) (a b : FVal) (x y r0 r0' : Vec) (i : ℕ),
      i < rows →
      V_kernel_scalar sx sy rows a b x y r0 i
        = V_kernel_scalar sx sy rows a b x y r0' i) := by
  refine ⟨?_, ?_, ?_, ?_, ?_, ?_⟩
  · intro rows cols av bv x y r0 r0' i k hi hk
    rw [MV_kernel, MV_kernel, if_pos ⟨hi, hk⟩, if_pos ⟨hi, hk⟩,
      MV_Axpby_Functor_val_spec sx sy hx hy, Option.getD_some, Option.getD_some]
  · intro rows cols a b x y r0 r0' i k hi hk
    rw [MV_kernel_scalar, MV_kernel_scalar, if_pos ⟨hi, hk⟩, if_pos ⟨hi, hk⟩,
      MV_Axpby_Functor_scalar_val_spec sx sy hx hy, Option.getD_some,
      Option.getD_some]
  · intro rows UNROLL av bv x y r0 r0' i k hi hk
    rw [MV_Unroll_kernel, MV_Unroll_kernel, if_pos ⟨hi, hk⟩, if_pos ⟨hi, hk⟩,
      MV_Axpby_Unroll_Functor_val_eq,
      MV_Axpby_Functor_val_spec sx sy hx hy, Option.getD_some, Option.getD_some]
  · intro rows UNROLL a b x y r0 r0' i k hi hk
    rw [MV_Unroll_kernel_scalar, MV_Unroll_kernel_scalar, if_pos ⟨hi, hk⟩,
      if_pos ⟨hi, hk⟩, MV_Axpby_Unroll_Functor_scalar_val_eq,
      MV_Axpby_Functor_scalar_val_spec sx sy hx hy, Option.getD_some,
      Option.getD_some]
  · intro rows av bv x y r0 r0' i hi
    rw [V_kernel, V_kernel, if_pos hi, if_pos hi,
      V_Axpby_Functor_val_spec sx sy hx hy, Option.getD_some, Option.getD_some]
  · intro rows a b x y r0 r0' i hi
    rw [V_kernel_scalar, V_kernel_scalar, if_pos hi, if_pos hi,
      V_Axpby_Functor_scalar_val_spec sx sy hx hy, Option.getD_some,
      Option.getD_some]

/-- Witness for C10: tags `(1, 1)` on a 1×1 problem; two runs with initial
`R` entries `0` and `9` write the same value. -/
theorem C10_output_independent_of_initial_R_witness :
    MV_kernel 1 1 1 1 (fun _ => fin 3) (fun _ => fin 5)
        (fun _ _ => fin 2) (fun _ _ => fin 7) (fun _ _ => fin 0) 0 0
      = MV_kernel 1 1 1 1 (fun _ => fin 3) (fun _ => fin 5)
        (fun _ _ => fin 2) (fun _ _ => fin 7) (fun _ _ => fin 9) 0 0 :=
  (C10_output_independent_of_initial_R 1 1 (Or.inr (Or.inr (Or.inl rfl)))
      (Or.inr (Or.inr (Or.inl rfl)))).1 1 1
    (fun _ => fin 3) (fun _ => fin 5) (fun _ _ => fin 2) (fun _ _ => fin 7)
    (fun _ _ => fin 0) (fun _ _ => fin 9) 0 0 Nat.zero_lt_one Nat.zero_lt_one

/-! ### C2 -/

/-- C2 counterexample: the dispatch functions do not enumerate all 16 tag
pairs explicitly — at the runtime pair `(2, 0)` none of the three launches
the functor with compile-time tags `(2, 0)`; all fall through to the `(2,2)`
default (the explicit `(2,0)`, `(2,-1)`, `(2,1)` branches are absent from
the source). -/
theorem C2_dispatch_counterexample :
    MV_Axpby_Generic_tags 2 0 ≠ (2, 0)
    ∧ V_Axpby_Generic_tags 2 0 ≠ (2, 0)
    ∧ MV_Axpby_Unrolled_tags 2 0 ≠ (2, 0)
    ∧ MV_Axpby_Generic_tags 2 0 = (2, 2)
    ∧ V_Axpby_Generic_tags 2 0 = (2, 2)
    ∧ MV_Axpby_Unrolled_tags 2 0 = (2, 2) := by decide

/-- C2 (amended): each dispatch function enumerates explicitly the twelve
combinations with first tag in `{0, -1, 1}` (checked in the order `0, -1, 1`
crossed with `0, -1, 1, 2`), and the unconditional `(2,2)` fallback serves
all four pairs with first tag `2`; each pair selects exactly one functor
instantiation, namely `(a, b)` itself when `a ≠ 2` and `(2, 2)` when
`a = 2`. -/
theorem C2_dispatch_amended (a b : Int) (ha : ValidTag a) (hb : ValidTag b) :
    MV_Axpby_Generic_tags a b = (if a = 2 then (2, 2) else (a, b))
    ∧ V_Axpby_Generic_tags a b = (if a = 2 then (2, 2) else (a, b))
    ∧ MV_Axpby_Unrolled_tags a b = (if a = 2 then (2, 2) else (a, b)) := by
  rcases ha with h | h | h | h <;> rcases hb with h' | h' | h' | h' <;>
    subst h <;> subst h' <;> refine ⟨by decide, by decide, by decide⟩

/-- Witness for C2 (amended), at the pairs `(1, 2)` (explicit branch) and
`(2, -1)` (served by the fallback). -/
theorem C2_dispatch_amended_witness :
    MV_Axpby_Generic_tags 1 2 = (1, 2) ∧ MV_Axpby_Generic_tags 2 (-1) = (2, 2) := by
  refine ⟨?_, ?_⟩
  · have h := (C2_dispatch_amended 1 2 (Or.inr (Or.inr (Or.inl rfl)))
      (Or.inr (Or.inr (Or.inr rfl)))).1
    simpa using h
  · have h := (C2_dispatch_amended 2 (-1) (Or.inr (Or.inr (Or.inr rfl)))
      (Or.inr (Or.inl rfl))).1
    simpa using h

/-! ### C3 -/

/-- C3: evaluation of the rank-2 scalar entry point at the failing input
`alpha = 2` (tag `GENERAL_SCALAR`), `beta = 0` (tag `ZERO`), a 1×1
problem with `X = 1` and `Y = NaN`.  The dispatch sends `(a, b) = (2, 0)` to
the `(2, 2)` functor, which reads `Y` and computes
`alpha·X + 0·NaN = NaN`, so the result is `NaN` rather than the claimed
`alpha·X = 2`: the ZERO-tagged operand is read and its contents do affect
`R`, contradicting the BLAS zero-coefficient semantics the source's own
comments promise. -/
theorem C3_zero_coefficient_operand_read :
    Axpby2_scalar_axpby Layout.left 1 1 (fin 2) FVal.zero
        (fun _ _ => FVal.one) (fun _ _ => FVal.nan) (fun _ _ => FVal.zero) 0 0
      = FVal.nan
    ∧ FVal.nan ≠ fin 2 * FVal.one
    ∧ classifyScalar2 (fin 2) = 2 ∧ classifyScalar2 FVal.zero = 0 := by
  refine ⟨by decide, by decide, by decide, by decide⟩

/-! ### C4 -/

/-- C4 counterexample: with a row-major layout and `cols = 2` the rank-2
entry point still delegates to the unrolled functor — never to the generic
non-unrolled path — because it calls `MV_Axpby_Invoke_Left` unconditionally
(`MV_Axpby_Invoke_Right` is dead code), contradicting the claim that a
row-major layout forces the generic path for `cols ∈ [2,16]`. -/
theorem C4_layout_counterexample :
    Axpby2_path Layout.right 2 = InvokePath.unrolled 2
    ∧ Axpby2_path Layout.right 2 ≠ InvokePath.generic := by decide

/-- C4 (amended): for every layout (the entry point never consults it), the
rank-2 invoker degrades to the rank-1 generic path when `cols = 1`,
delegates to the unrolled functor instantiated at exactly `cols` when
`cols ∈ [2, 16]`, and delegates to the generic non-unrolled rank-2 path when
`cols` is outside `[1, 16]`. -/
theorem C4_invoker_amended (lay : Layout) :
    Axpby2_path lay 1 = InvokePath.rank1
    ∧ (∀ n : ℕ, 2 ≤ n → n ≤ 16 → Axpby2_path lay n = InvokePath.unrolled n)
    ∧ (∀ n : ℕ, n = 0 ∨ 17 ≤ n → Axpby2_path lay n = InvokePath.generic) := by
  refine ⟨rfl, ?_, ?_⟩
  · intro n h2 h16
    interval_cases n <;> rfl
  · intro n h
    rcases h with h | h
    · subst h; rfl
    · rw [Axpby2_path, MV_Axpby_Invoke_Left_path]
      repeat rw [if_neg (by omega)]

/-- Witness for C4 (amended): `cols = 7` row-major goes to the unrolled
path at width 7; `cols = 40` column-major goes to the generic path. -/
theorem C4_invoker_amended_witness :
    Axpby2_path Layout.right 7 = InvokePath.unrolled 7
    ∧ Axpby2_path Layout.left 40 = InvokePath.generic :=
  ⟨(C4_invoker_amended Layout.right).2.1 7 (by decide) (by decide),
   (C4_invoker_amended Layout.left).2.2 40 (Or.inr (by decide))⟩

/-! ### C5 -/

/-- C5: both scalar-coefficient entry points classify a coefficient `v` to
tag `0` exactly when `v` equals the additive identity, `-1` exactly when it
equals the negated multiplicative identity, `1` exactly when it equals the
multiplicative identity, and `2` otherwise — exact equality, no tolerance —
and the rank-1 and rank-2 classifiers agree. -/
theorem C5_scalar_classification :
    ∀ v : FVal,
      classifyScalar2 v
        = (if v = FVal.zero then 0
           else if v = -FVal.one then -1
           else if v = FVal.one then 1
           else 2)
      ∧ classifyScalar1 v = classifyScalar2 v := by
  intro v
  refine ⟨?_, rfl⟩
  cases v with
  | nan => decide
  | fin q =>
    simp only [classifyScalar2, FVal.neg_fin, FVal.zero, FVal.one, feq,
      beq_iff_eq, FVal.fin.injEq]

/-! ### C6 -/

/-- C6: a per-column (vector-form) coefficient classifies to tag `0` exactly
when the sequence has zero length and to tag `2` (GENERAL_VECTOR) for every
nonzero length, independently of the sequence's contents; the tags `-1` and
`1` are never assigned to a vector-form coefficient. -/
theorem C6_vector_classification :
    ∀ (len : ℕ) (av av' : Vec),
      (classifyVecCoeff len av = 0 ↔ len = 0)
      ∧ (len ≠ 0 → classifyVecCoeff len av = 2)
      ∧ classifyVecCoeff len av = classifyVecCoeff len av'
      ∧ classifyVecCoeff len av ≠ 1
      ∧ classifyVecCoeff len av ≠ -1 := by
  intro len av av'
  by_cases h : len = 0 <;> simp [classifyVecCoeff, h]

/-- Witness for C6: length 3 with all contents equal to `0` still
classifies as GENERAL_VECTOR (tag 2); length 0 classifies as ZERO. -/
theorem C6_vector_classification_witness :
    classifyVecCoeff 3 (fun _ => FVal.zero) = 2
    ∧ classifyVecCoeff 0 (fun _ => FVal.zero) = 0 :=
  ⟨(C6_vector_classification 3 (fun _ => FVal.zero) (fun _ => FVal.zero)).2.1
      (by decide),
   (C6_vector_classification 0 (fun _ => FVal.zero) (fun _ => FVal.zero)).1.mpr
      rfl⟩

/-! ### C7 -/

/-- The scalar-coefficient invoker agrees with the generic non-unrolled
path at every column count (rank-1 degradation at `cols = 1`, unrolled at
`cols ∈ [2,16]`, generic otherwise). -/
theorem MV_Axpby_Invoke_Left_scalar_run_eq_generic
    (rows cols : ℕ) (alpha beta : FVal) (x y r0 : Grid) (a b : Int) :
    MV_Axpby_Invoke_Left_scalar_run rows cols alpha beta x y r0 a b
      = MV_Axpby_Generic_scalar_run rows cols alpha beta x y r0 a b := by
  rcases Nat.lt_or_ge cols 17 with hlt | hge
  · interval_cases cols
    · rfl
    · -- cols = 1: the rank-1 degradation on column-0 subviews
      rw [MV_Axpby_Invoke_Left_scalar_run, if_pos rfl]
      funext i k
      by_cases hk : k = 0
      · subst hk
        rw [V_Axpby_Generic_scalar_run, V_kernel_scalar,
          MV_Axpby_Generic_scalar_run, MV_kernel_scalar]
        by_cases hi : i < rows
        · rw [if_pos rfl, if_pos hi, if_pos ⟨hi, Nat.zero_lt_one⟩]
          rfl
        · rw [if_pos rfl, if_neg hi, if_neg (by omega)]
      · rw [if_neg hk, MV_Axpby_Generic_scalar_run, MV_kernel_scalar,
          if_neg (by omega)]
    all_goals rfl
  · rw [MV_Axpby_Invoke_Left_scalar_run]
    repeat rw [if_neg (by omega)]

/-- The vector-coefficient invoker agrees with the generic non-unrolled
path at every column count; at `cols = 1` the degradation path's
`V_Axpby_Functor` reads `av(0)`, `bv(0)`, which coincides with the generic
rank-2 functor's `av(k)`, `bv(k)` at the only column `k = 0`. -/
theorem MV_Axpby_Invoke_Left_run_eq_generic
    (rows cols : ℕ) (av bv : Vec) (x y r0 : Grid) (a b : Int) :
    MV_Axpby_Invoke_Left_run rows cols av bv x y r0 a b
      = MV_Axpby_Generic_run rows cols av bv x y r0 a b := by
  rcases Nat.lt_or_ge cols 17 with hlt | hge
  · interval_cases cols
    · rfl
    · -- cols = 1: the rank-1 degradation on column-0 subviews
      rw [MV_Axpby_Invoke_Left_run, if_pos rfl]
      funext i k
      by_cases hk : k = 0
      · subst hk
        rw [V_Axpby_Generic_run, V_kernel, MV_Axpby_Generic_run, MV_kernel]
        by_cases hi : i < rows
        · rw [if_pos rfl, if_pos hi, if_pos ⟨hi, Nat.zero_lt_one⟩]
          rfl
        · rw [if_pos rfl, if_neg hi, if_neg (by omega)]
      · rw [if_neg hk, MV_Axpby_Generic_run, MV_kernel, if_neg (by omega)]
    all_goals rfl
  · rw [MV_Axpby_Invoke_Left_run]
    repeat rw [if_neg (by omega)]

/-- C7: the three rank-2 execution paths produce identical contents of `R`
for the same logical inputs, for both coefficient kinds: the unrolled
kernels coincide with the generic kernels at the same width (for every tag
pair, both coefficient kinds), the layout-aware invoker's result —
whichever of the three paths its `switch (numCols)` takes — equals the
generic non-unrolled path's result for scalar and for vector (per-column)
coefficients, the rank-2 entry point at `cols = 1` agrees with the rank-1
entry point applied to the corresponding single-column views, the rank-2
vector-coefficient entry point equals the generic path at the classified
tags, and at `cols = 1` its degradation path equals the rank-1 generic
dispatch on the single-column views. -/
theorem C7_path_equivalence :
    (∀ (sx sy : Int) (rows n : ℕ) (av bv : Vec) (x y r0 : Grid),
      MV_Unroll_kernel sx sy rows n av bv x y r0
        = MV_kernel sx sy rows n av bv x y r0)
    ∧ (∀ (sx sy : Int) (rows n : ℕ) (a b : FVal) (x y r0 : Grid),
      MV_Unroll_kernel_scalar sx sy rows n a b x y r0
        = MV_kernel_scalar sx sy rows n a b x y r0)
    ∧ (∀ (rows cols : ℕ) (alpha beta : FVal) (x y r0 : Grid) (a b : Int),
      MV_Axpby_Invoke_Left_scalar_run rows cols alpha beta x y r0 a b
        = MV_Axpby_Generic_scalar_run rows cols alpha beta x y r0 a b)
    ∧ (∀ (rows : ℕ) (alpha beta : FVal) (x y r0 : Grid) (i : ℕ),
      Axpby2_scalar_axpby Layout.left rows 1 alpha beta x y r0 i 0
        = Axpby1_scalar_axpby rows alpha beta
            (fun j => x j 0) (fun j => y j 0) (fun j => r0 j 0) i)
    ∧ (∀ (rows cols : ℕ) (av bv : Vec) (x y r0 : Grid) (a b : Int),
      MV_Axpby_Invoke_Left_run rows cols av bv x y r0 a b
        = MV_Axpby_Generic_run rows cols av bv x y r0 a b)
    ∧ (∀ (lay : Layout) (rows cols aLen bLen : ℕ) (av bv : Vec)
        (x y r0 : Grid),
      Axpby2_vector_axpby lay rows cols aLen bLen av bv x y r0
        = MV_Axpby_Generic_run rows cols av bv x y r0
            (classifyVecCoeff aLen av) (classifyVecCoeff bLen bv))
    ∧ (∀ (rows : ℕ) (av bv : Vec) (x y r0 : Grid) (a b : Int) (i : ℕ),
      MV_Axpby_Invoke_Left_run rows 1 av bv x y r0 a b i 0
        = V_Axpby_Generic_run rows av bv
            (fun j => x j 0) (fun j => y j 0) (fun j => r0 j 0) a b i) := by
  refine ⟨fun _ _ _ _ _ _ _ _ _ => rfl, fun _ _ _ _ _ _ _ _ _ => rfl,
    MV_Axpby_Invoke_Left_scalar_run_eq_generic, ?_,
    MV_Axpby_Invoke_Left_run_eq_generic, ?_, fun _ _ _ _ _ _ _ _ _ => rfl⟩
  · intro rows alpha beta x y r0 i
    simp only [Axpby2_scalar_axpby, Axpby1_scalar_axpby, ite_self]
    rfl
  · intro lay rows cols aLen bLen av bv x y r0
    simp only [Axpby2_vector_axpby, ite_self]
    exact MV_Axpby_Invoke_Left_run_eq_generic rows cols av bv x y r0
      (classifyVecCoeff aLen av) (classifyVecCoeff bLen bv)

/-! ### C8 -/

/-- The spec's notion of a value fitting in the (nonnegative part of the)
32-bit signed range: `n ≤ INT_MAX = 2^31 - 1`. -/
def fitsInt32 (n : ℕ) : Prop := n ≤ 2 ^ 31 - 1

/-- C8 counterexample: `rows = 2147483647 = INT_MAX`, `cols = 1`.  Both
`rows` and `rows·cols` fit in the 32-bit signed range, yet the entry point
selects the native size type: the source's test is `rows < INT_MAX`,
strictly below, not "fits". -/
theorem C8_index_width_counterexample :
    chooseIndexWidth2 2147483647 1 = false
    ∧ fitsInt32 2147483647 ∧ fitsInt32 (2147483647 * 1) := by
  refine ⟨by decide, by unfold fitsInt32; decide, by unfold fitsInt32; decide⟩

/-- C8 (amended): the entry points select the 32-bit `int` index type iff
the row count is strictly below `INT_MAX` and (for rank 2) the product
`rows·cols`, computed in the 64-bit unsigned `size_type`, is strictly below
`INT_MAX`; the choice is made once per top-level call from the runtime
sizes, and it is functionally transparent — the computed contents of `R`
are identical under either index width. -/
theorem C8_index_width_amended :
    (∀ rows cols : ℕ, chooseIndexWidth2 rows cols = true
      ↔ (rows < INT_MAX ∧ rows * cols % 2 ^ 64 < INT_MAX))
    ∧ (∀ rows : ℕ, chooseIndexWidth1 rows = true ↔ rows < INT_MAX)
    ∧ (∀ (w w' : Bool) (rows cols : ℕ) (alpha beta : FVal) (x y r0 : Grid),
      Axpby2_scalar_axpbyWith w rows cols alpha beta x y r0
        = Axpby2_scalar_axpbyWith w' rows cols alpha beta x y r0)
    ∧ (∀ (lay : Layout) (rows cols : ℕ) (alpha beta : FVal) (x y r0 : Grid),
      Axpby2_scalar_axpby lay rows cols alpha beta x y r0
        = Axpby2_scalar_axpbyWith (chooseIndexWidth2 rows cols)
            rows cols alpha beta x y r0) := by
  refine ⟨?_, ?_, ?_, ?_⟩
  · intro rows cols
    simp [chooseIndexWidth2]
  · intro rows
    simp [chooseIndexWidth1]
  · intro w w' rows cols alpha beta x y r0
    cases w <;> cases w' <;> rfl
  · intro lay rows cols alpha beta x y r0
    rfl

/-! ### C9 -/

/-- C9: for every availability configuration, the `rot` unification layer
resolves the implementation with priority backend-specific (TPL) override
first, then the separately compiled (ETI) instantiation, then the
header-only generic path: the generic `Rot_Invoke` body is used exactly
when no TPL override is available for the type tuple, and the ETI
availability flag changes only whether that body is compiled into the
library or into the caller's translation unit — never which body runs. -/
theorem C9_rot_unification :
    ∀ tplAvail etiAvail : Bool,
      (rotSelect tplAvail etiAvail = RotImpl.tplOverride ↔ tplAvail = true)
      ∧ (rotBodyOf (rotSelect tplAvail etiAvail) = RotBody.rotInvoke
          ↔ tplAvail = false)
      ∧ rotBodyOf (rotSelect false etiAvail) = rotBodyOf (rotSelect false true)
      ∧ rotCompiledInLibrary (rotSelect false etiAvail) = etiAvail := by
  decide

end KokkosBlas
